import Mathlib

/-!
Verification of the taskcluster-pulse repository: a shallow embedding of
`src/rabbitmanager.js`, of the permission templates in `config.yml`, and of
the namespace-lifecycle components described by the design spec, together
with theorems settling the frozen claims C1..C10.
-/

namespace Pulse

/-! ## JSON values

`JSON.parse` / `JSON.stringify` are external library functions; JSON values
are modelled as an abstract syntax tree and a parser is passed as an
explicit parameter wherever the source calls `JSON.parse`. -/

inductive Json where
  | str (s : String)
  | num (n : Int)
  | arr (xs : List Json)
  | obj (fields : List (String × Json))

/-- The result type of the response transform in `rabbitmanager.js`:
either a raw string (the empty-body case returns `''`) or a parsed JSON
value. -/
inductive JsonOrStr where
  | str (s : String)
  | json (j : Json)

/-! ## Request options (from `RabbitManager.constructor`, src/rabbitmanager.js lines 19-35) -/

/-- The `auth` object of the constructor's options. -/
structure Auth where
  username : String
  password : String
  sendImmediately : Bool

/-- HTTP method of a request; `request-promise` defaults to GET when the
options carry no `method` key. -/
inductive Method where
  | GET
  | PUT
  | DELETE
deriving DecidableEq

/-- The full options object handed to `request-promise`: the constructor's
defaults plus the keys (`uri`, `method`, `body`) that `request` and its
callers may add. Missing `method`/`body` keys are the library defaults
GET / no body; `uri` is always set by `request` before the merge. -/
structure Options where
  baseUrl : String
  auth : Auth
  headers : List (String × String)
  transform : String → JsonOrStr
  simple : Bool
  uri : String
  method : Method
  body : Option Json

/-- An options-override object as passed to `request(endpoint, optionsOverride)`:
each key is either present (`some`) or absent (`none`), mirroring which keys
a JavaScript object literal carries. -/
structure OptionsOverride where
  baseUrl : Option String
  auth : Option Auth
  headers : Option (List (String × String))
  transform : Option (String → JsonOrStr)
  simple : Option Bool
  uri : Option String
  method : Option Method
  body : Option (Option Json)

/-- The empty override object `\x7b\x7d` (the default argument of `request`). -/
def emptyOverride : OptionsOverride :=
  ⟨none, none, none, none, none, none, none, none⟩

/-- Semantics of `Object.assign` of the defaults and the override: a shallow merge in
which every key present in the override replaces the default wholesale and
every absent key keeps the default. -/
def mergeOptions (d : Options) (o : OptionsOverride) : Options where
  baseUrl := o.baseUrl.getD d.baseUrl
  auth := o.auth.getD d.auth
  headers := o.headers.getD d.headers
  transform := o.transform.getD d.transform
  simple := o.simple.getD d.simple
  uri := o.uri.getD d.uri
  method := o.method.getD d.method
  body := o.body.getD d.body

/-- The response transform installed by the constructor
(src/rabbitmanager.js lines 27-32): parse a non-empty body as JSON,
return the empty string for an empty body. -/
def transform (parse : String → Json) (body : String) : JsonOrStr :=
  if body ≠ "" then JsonOrStr.json (parse body) else JsonOrStr.str ""

/-- The default options built by `RabbitManager.constructor`
(src/rabbitmanager.js lines 19-35). -/
def defaultOptions (parse : String → Json) (username password baseUrl : String) : Options where
  baseUrl := baseUrl
  auth := ⟨username, password, false⟩
  headers := [("Content-Type", "application/json")]
  transform := transform parse
  simple := true
  uri := ""
  method := Method.GET
  body := none

structure RabbitManager where
  options : Options

/-- JavaScript string truthiness as used by `assert(username, ...)`:
a missing (undefined) credential and the empty string are falsy. -/
def truthy : Option String → Bool
  | none => false
  | some s => !(s == "")

/-- The `RabbitManager.constructor` (src/rabbitmanager.js lines 15-36): the three
`assert` calls throw on a missing or empty credential, otherwise the
options object is built and stored. -/
def RabbitManager.make (parse : String → Json) (username password baseUrl : Option String) :
    Except String RabbitManager :=
  if !(truthy username) then Except.error "Must provide a rabbitmq username!"
  else if !(truthy password) then Except.error "Must provide a rabbitmq password!"
  else if !(truthy baseUrl) then Except.error "Must provide a rabbitmq baseUrl!"
  else Except.ok ⟨defaultOptions parse (username.getD "") (password.getD "") (baseUrl.getD "")⟩

/-- Whether constructing a `RabbitManager` succeeds (does not throw). -/
def constructionSucceeds (parse : String → Json) (u p b : Option String) : Bool :=
  match RabbitManager.make parse u p b with
  | Except.ok _ => true
  | Except.error _ => false

/-- The method `RabbitManager.request` (src/rabbitmanager.js lines 38-42):
`optionsOverride['uri'] = endpoint` mutates the override in place, then the
override is shallow-merged over the defaults. -/
def RabbitManager.request (m : RabbitManager) (endpoint : String) (ov : OptionsOverride) :
    Options :=
  mergeOptions m.options { ov with uri := some endpoint }

/-! ## request-promise semantics -/

/-- An HTTP response from the broker management API. -/
structure Response where
  statusCode : Nat
  body : String

/-- The error thrown by `request-promise` in `simple` mode: it carries the
response's status code (`error.statusCode`, as the repository's tests
inspect). -/
structure RpError where
  statusCode : Nat
deriving DecidableEq

def is2xx (status : Nat) : Bool := 200 ≤ status && status < 300

/-- Semantics of `rp(options)` resolved against a given broker response: with
`simple: true` a non-2xx status is an exception (the comment at
src/rabbitmanager.js line 33), otherwise the transform is applied to the
body. -/
def rp (opts : Options) (resp : Response) : Except RpError JsonOrStr :=
  if opts.simple && !(is2xx resp.statusCode) then Except.error ⟨resp.statusCode⟩
  else Except.ok (opts.transform resp.body)

def isSuccess {ε α : Type} : Except ε α → Bool
  | Except.ok _ => true
  | Except.error _ => false

/-! ## The endpoint methods (src/rabbitmanager.js lines 44-68) -/

def RabbitManager.overview (m : RabbitManager) (resp : Response) : Except RpError JsonOrStr :=
  rp (m.request "overview" emptyOverride) resp

def RabbitManager.clusterName (m : RabbitManager) (resp : Response) : Except RpError JsonOrStr :=
  rp (m.request "cluster-name" emptyOverride) resp

/-- The payload object of `createUser` (src/rabbitmanager.js lines 53-56). -/
def createUserPayload (password : String) (tags : List String) : Json :=
  Json.obj [("password", Json.str password), ("tags", Json.arr (tags.map Json.str))]

/-- The PUT request issued by `createUser` (src/rabbitmanager.js lines 58-61). -/
def RabbitManager.createUserRequest (m : RabbitManager) (name password : String)
    (tags : List String) : Options :=
  m.request ("users/" ++ name)
    { emptyOverride with body := some (some (createUserPayload password tags)),
                         method := some Method.PUT }

def RabbitManager.createUser (m : RabbitManager) (name password : String) (tags : List String)
    (resp : Response) : Except RpError JsonOrStr :=
  rp (m.createUserRequest name password tags) resp

/-- The DELETE request issued by `deleteUser` (src/rabbitmanager.js lines 64-68). -/
def RabbitManager.deleteUserRequest (m : RabbitManager) (name : String) : Options :=
  m.request ("users/" ++ name) { emptyOverride with method := some Method.DELETE }

def RabbitManager.deleteUser (m : RabbitManager) (name : String) (resp : Response) :
    Except RpError JsonOrStr :=
  rp (m.deleteUserRequest name) resp

/-! ## Broker-side user table -/

/-- A broker user record as stored by the management API. -/
structure BrokerUser where
  password : String
  tags : List String
deriving DecidableEq

/-- Modelled from the spec: the broker's "create/overwrite user" PUT
semantics (spec section 6: "overwrites password+tags"; the broker itself is
an external collaborator, not part of src/). The user table keeps exactly
one record per name; a PUT replaces any existing record in place. -/
def putUser (users : List (String × BrokerUser)) (name : String) (u : BrokerUser) :
    List (String × BrokerUser) :=
  (name, u) :: users.filter (fun q => q.1 != name)

/-- A concrete manager for counterexample evaluation. -/
def testParse : String → Json := fun s => Json.str s

def testManager : RabbitManager :=
  ⟨defaultOptions testParse "guest" "guest" "http://localhost:15672/api/"⟩

/-- Entries of an association list surviving a key-removing filter never
match the removed key again. -/
theorem filter_ne_filter_eq {β : Type} (users : List (String × β)) (name : String) :
    (users.filter (fun q => q.1 != name)).filter (fun q => q.1 == name) = [] := by
  rw [List.filter_filter]
  simp [bne]

/-! ## Claim theorems for the RabbitManager -/

/-- C1 (counterexample): the claim says `deleteUser` of a user the broker
does not know (a 404 response) completes successfully; in fact, because the
constructor sets `simple: true` and `deleteUser` neither overrides it nor
catches the rejection, the call is an error carrying statusCode 404
(exactly what the repository's own `deleteUserException` test asserts). -/
theorem C1_deleteUser_404_counterexample :
    testManager.deleteUser "alice" ⟨404, ""⟩ = Except.error ⟨404⟩ ∧
    isSuccess (testManager.deleteUser "alice" ⟨404, ""⟩) = false := by
  exact ⟨rfl, rfl⟩

/-- C1 (amended): for every manager built by the constructor and every user
name, `deleteUser(name)` against a broker 404 response rejects with an
error whose statusCode is 404 — a second delete of an already-deleted user
fails rather than succeeding; the delete is not idempotent at this layer. -/
theorem C1_deleteUser_404_throws (parse : String → Json) (u p b name body : String) :
    (RabbitManager.mk (defaultOptions parse u p b)).deleteUser name ⟨404, body⟩ =
      Except.error ⟨404⟩ := rfl

/-- C3: `createUser(name, password, tags)` issues a PUT to `users/name`
whose JSON body carries exactly that password and those tags; under the
broker's PUT-overwrite semantics, two successive `createUser` calls for the
same name leave exactly one user record, holding the second call's
password and tags. -/
theorem C3_createUser_overwrites (m : RabbitManager) (name p1 p2 : String)
    (t1 t2 : List String) (users : List (String × BrokerUser)) :
    (m.createUserRequest name p2 t2).uri = "users/" ++ name ∧
    (m.createUserRequest name p2 t2).method = Method.PUT ∧
    (m.createUserRequest name p2 t2).body =
      some (Json.obj [("password", Json.str p2), ("tags", Json.arr (t2.map Json.str))]) ∧
    (putUser (putUser users name ⟨p1, t1⟩) name ⟨p2, t2⟩).lookup name = some ⟨p2, t2⟩ ∧
    ((putUser (putUser users name ⟨p1, t1⟩) name ⟨p2, t2⟩).filter
        (fun q => q.1 == name)).length = 1 := by
  refine ⟨rfl, rfl, rfl, ?_, ?_⟩
  · simp [putUser, List.lookup]
  · simp [putUser, List.filter_cons, filter_ne_filter_eq]

/-- C4: constructing a `RabbitManager` throws exactly when one of the
required credentials (username, password, baseUrl) is missing or the empty
string; with all three truthy the construction succeeds. -/
theorem C4_constructor_asserts (parse : String → Json) (u p b : Option String) :
    constructionSucceeds parse u p b = (truthy u && truthy p && truthy b) := by
  unfold constructionSucceeds RabbitManager.make
  cases hu : truthy u <;> cases hp : truthy p <;> cases hb : truthy b <;> simp [hu, hp, hb]

/-- C9: the response transform returns the empty string on an empty body
and the JSON-parsed body otherwise; hence `overview()` and `clusterName()`
resolve to the broker's JSON-decoded object on a 2xx response with a
non-empty body. -/
theorem C9_transform_parses (parse : String → Json) (u p b : String) (resp : Response)
    (h2xx : is2xx resp.statusCode = true) (hbody : resp.body ≠ "") :
    transform parse "" = JsonOrStr.str "" ∧
    transform parse resp.body = JsonOrStr.json (parse resp.body) ∧
    (RabbitManager.mk (defaultOptions parse u p b)).overview resp =
      Except.ok (JsonOrStr.json (parse resp.body)) ∧
    (RabbitManager.mk (defaultOptions parse u p b)).clusterName resp =
      Except.ok (JsonOrStr.json (parse resp.body)) := by
  refine ⟨rfl, ?_, ?_, ?_⟩
  · simp [transform, hbody]
  · simp [RabbitManager.overview, rp, h2xx, RabbitManager.request, mergeOptions,
      emptyOverride, defaultOptions, transform, hbody]
  · simp [RabbitManager.clusterName, rp, h2xx, RabbitManager.request, mergeOptions,
      emptyOverride, defaultOptions, transform, hbody]

/-- Witness for C9 at a concrete parser, manager and response. -/
theorem C9_transform_parses_witness :
    (is2xx 200 = true ∧ ("42" : String) ≠ "") ∧
    (transform testParse "" = JsonOrStr.str "" ∧
     transform testParse "42" = JsonOrStr.json (testParse "42") ∧
     (RabbitManager.mk (defaultOptions testParse "guest" "guest" "u")).overview ⟨200, "42"⟩ =
       Except.ok (JsonOrStr.json (testParse "42")) ∧
     (RabbitManager.mk (defaultOptions testParse "guest" "guest" "u")).clusterName ⟨200, "42"⟩ =
       Except.ok (JsonOrStr.json (testParse "42"))) :=
  ⟨⟨by decide, by decide⟩,
   C9_transform_parses testParse "guest" "guest" "u" ⟨200, "42"⟩ (by decide) (by decide)⟩

/-- C10: `request(endpoint, optionsOverride)` always issues the request at
`endpoint` — the override's own `uri` key is overwritten in place before the
merge — and the merge is shallow: every key present in the override replaces
the constructor default wholesale, every absent key keeps the default. -/
theorem C10_request_shallow_merge (m : RabbitManager) (endpoint : String)
    (ov : OptionsOverride) :
    (m.request endpoint ov).uri = endpoint ∧
    (m.request endpoint ov).baseUrl = ov.baseUrl.getD m.options.baseUrl ∧
    (m.request endpoint ov).auth = ov.auth.getD m.options.auth ∧
    (m.request endpoint ov).headers = ov.headers.getD m.options.headers ∧
    (m.request endpoint ov).transform = ov.transform.getD m.options.transform ∧
    (m.request endpoint ov).simple = ov.simple.getD m.options.simple ∧
    (m.request endpoint ov).method = ov.method.getD m.options.method ∧
    (m.request endpoint ov).body = ov.body.getD m.options.body :=
  ⟨rfl, rfl, rfl, rfl, rfl, rfl, rfl, rfl⟩

/-! ## Permission templates (config.yml lines 20-22)

The broker's permission model is regex-based. The fragment of regular
expressions the templates use (literal characters, alternation, a leading
anchor, and the tail wildcard `.*`) is embedded as an AST with standard
matching semantics, and each substituted template is tied back to the exact
configured string by a rendering theorem. -/

inductive Regex where
  | eps
  | chr (c : Char)
  | dotStar
  | seq (r1 r2 : Regex)
  | alt (r1 r2 : Regex)

/-- Standard regular-expression matching of a whole word. -/
def rmatch : Regex → List Char → Bool
  | Regex.eps, w => w.isEmpty
  | Regex.chr c, w => w == [c]
  | Regex.dotStar, _ => true
  | Regex.seq r1 r2, w =>
      (List.range (w.length + 1)).any (fun i => rmatch r1 (w.take i) && rmatch r2 (w.drop i))
  | Regex.alt r1 r2, w => rmatch r1 w || rmatch r2 w

/-- A literal word as a regex. -/
def lit : List Char → Regex
  | [] => Regex.eps
  | c :: cs => Regex.seq (Regex.chr c) (lit cs)

/-- A literal followed by the tail wildcard `.*`. -/
def prefixPattern (p : List Char) : Regex := Regex.seq (lit p) Regex.dotStar

/-- The concrete regex text denoted by an AST (body of the anchored group). -/
def Regex.render : Regex → List Char
  | Regex.eps => []
  | Regex.chr c => [c]
  | Regex.dotStar => ['.', '*']
  | Regex.seq r1 r2 => r1.render ++ r2.render
  | Regex.alt r1 r2 => r1.render ++ '|' :: r2.render

/-- The full configured pattern text: `^(` body `)`. -/
def renderAnchored (r : Regex) : List Char := '^' :: '(' :: (r.render ++ [')'])

/-- Semantics of `regex.test(s)` for a `^`-anchored pattern: some prefix of `s` matches
the group body. -/
def anchoredTest (r : Regex) (s : List Char) : Bool :=
  s.inits.any (fun q => rmatch r q)

/-- The `userConfigPermission` template string, verbatim from config.yml line 20. -/
def userConfigPermissionTemplate : String :=
  "^(queue/\x7b\x7bnamespace\x7d\x7d/.*|exchange/\x7b\x7bnamespace\x7d\x7d/.*)"

/-- The `userWritePermission` template string, verbatim from config.yml line 21. -/
def userWritePermissionTemplate : String :=
  "^(queue/\x7b\x7bnamespace\x7d\x7d/.*|exchange/\x7b\x7bnamespace\x7d\x7d/.*)"

/-- The `userReadPermission` template string, verbatim from config.yml line 22. -/
def userReadPermissionTemplate : String :=
  "^(queue/\x7b\x7bnamespace\x7d\x7d/.*|exchange/.*)"

/-- The placeholder token of the templates. -/
def placeholder : List Char := String.toList "\x7b\x7bnamespace\x7d\x7d"

/-- Modelled from the spec: template substitution ("templates with
namespace substitution", spec section 6; the substitution code itself is
not under src/). Fuel-indexed so that the recursion is structural; the fuel
is the length of the processed list, an upper bound on the number of
steps. -/
def substAux (ns : List Char) : Nat → List Char → List Char
  | _, [] => []
  | 0, l => l
  | Nat.succ fuel, c :: cs =>
      if placeholder.isPrefixOf (c :: cs) then
        ns ++ substAux ns fuel (cs.drop (placeholder.length - 1))
      else
        c :: substAux ns fuel cs

/-- Replace every occurrence of the namespace placeholder by `ns`. -/
def substNamespace (ns : List Char) (l : List Char) : List Char :=
  substAux ns l.length l

/-- The queue-name prefix owned by a namespace (config.yml `queuePrefix`). -/
def queuePrefixOf (ns : List Char) : List Char := String.toList "queue/" ++ (ns ++ ['/'])

/-- The exchange-name prefix owned by a namespace (config.yml `exchangePrefix`). -/
def exchangePrefixOf (ns : List Char) : List Char := String.toList "exchange/" ++ (ns ++ ['/'])

/-- The configure-permission pattern for a namespace. -/
def userConfigPermission (ns : List Char) : Regex :=
  Regex.alt (prefixPattern (queuePrefixOf ns)) (prefixPattern (exchangePrefixOf ns))

/-- The write-permission pattern for a namespace. -/
def userWritePermission (ns : List Char) : Regex :=
  Regex.alt (prefixPattern (queuePrefixOf ns)) (prefixPattern (exchangePrefixOf ns))

/-- The read-permission pattern for a namespace. -/
def userReadPermission (ns : List Char) : Regex :=
  Regex.alt (prefixPattern (queuePrefixOf ns)) (prefixPattern (String.toList "exchange/"))

theorem lit_render (p : List Char) : (lit p).render = p := by
  induction p with
  | nil => rfl
  | cons c cs ih => simp [lit, Regex.render, ih]

/-- The configure pattern renders to exactly the substituted config.yml
template. -/
theorem userConfigPermission_render (ns : List Char) :
    renderAnchored (userConfigPermission ns) =
      substNamespace ns userConfigPermissionTemplate.toList := by
  simp [renderAnchored, userConfigPermission, prefixPattern, Regex.render, lit_render,
    queuePrefixOf, exchangePrefixOf, substNamespace, substAux, placeholder,
    userConfigPermissionTemplate, List.isPrefixOf]

/-- The write pattern renders to exactly the substituted config.yml
template. -/
theorem userWritePermission_render (ns : List Char) :
    renderAnchored (userWritePermission ns) =
      substNamespace ns userWritePermissionTemplate.toList := by
  simp [renderAnchored, userWritePermission, prefixPattern, Regex.render, lit_render,
    queuePrefixOf, exchangePrefixOf, substNamespace, substAux, placeholder,
    userWritePermissionTemplate, List.isPrefixOf]

/-- The read pattern renders to exactly the substituted config.yml
template. -/
theorem userReadPermission_render (ns : List Char) :
    renderAnchored (userReadPermission ns) =
      substNamespace ns userReadPermissionTemplate.toList := by
  simp [renderAnchored, userReadPermission, prefixPattern, Regex.render, lit_render,
    queuePrefixOf, exchangePrefixOf, substNamespace, substAux, placeholder,
    userReadPermissionTemplate, List.isPrefixOf]

/-! ### Matching semantics of the permission patterns -/

theorem rmatch_seq (r1 r2 : Regex) (w : List Char) :
    rmatch (Regex.seq r1 r2) w = true ↔
      ∃ u v, w = u ++ v ∧ rmatch r1 u = true ∧ rmatch r2 v = true := by
  constructor
  · intro h
    simp only [rmatch, List.any_eq_true, List.mem_range, Bool.and_eq_true] at h
    obtain ⟨i, _, h1, h2⟩ := h
    exact ⟨w.take i, w.drop i, (List.take_append_drop i w).symm, h1, h2⟩
  · rintro ⟨u, v, rfl, h1, h2⟩
    simp only [rmatch, List.any_eq_true, List.mem_range, Bool.and_eq_true]
    refine ⟨u.length, ?_, ?_, ?_⟩
    · simp [List.length_append]
      omega
    · simpa [List.take_left] using h1
    · simpa [List.drop_left] using h2

theorem rmatch_lit (p : List Char) : ∀ w, rmatch (lit p) w = true ↔ w = p := by
  induction p with
  | nil =>
    intro w
    simp [lit, rmatch, List.isEmpty_iff]
  | cons c cs ih =>
    intro w
    rw [lit, rmatch_seq]
    constructor
    · rintro ⟨u, v, rfl, h1, h2⟩
      simp only [rmatch, beq_iff_eq] at h1
      rw [ih] at h2
      rw [h1, h2]
      rfl
    · rintro rfl
      exact ⟨[c], cs, rfl, by simp [rmatch], (ih cs).mpr rfl⟩

theorem rmatch_prefixPattern (p w : List Char) :
    rmatch (prefixPattern p) w = true ↔ p <+: w := by
  rw [prefixPattern, rmatch_seq]
  constructor
  · rintro ⟨u, v, rfl, h1, _⟩
    rw [rmatch_lit] at h1
    rw [h1]
    exact ⟨v, rfl⟩
  · rintro ⟨v, rfl⟩
    exact ⟨p, v, rfl, (rmatch_lit p p).mpr rfl, rfl⟩

/-- A `^`-anchored alternation of two literal-head wildcard-tail patterns
tests a string exactly when one of the two literals is a prefix of it. -/
theorem anchoredTest_alt_prefixes (p1 p2 s : List Char) :
    anchoredTest (Regex.alt (prefixPattern p1) (prefixPattern p2)) s = true ↔
      p1 <+: s ∨ p2 <+: s := by
  unfold anchoredTest
  rw [List.any_eq_true]
  constructor
  · rintro ⟨q, hq, hm⟩
    rw [List.mem_inits] at hq
    have hsplit : rmatch (prefixPattern p1) q = true ∨ rmatch (prefixPattern p2) q = true := by
      simpa [rmatch, Bool.or_eq_true] using hm
    rcases hsplit with h | h
    · exact Or.inl (((rmatch_prefixPattern _ _).mp h).trans hq)
    · exact Or.inr (((rmatch_prefixPattern _ _).mp h).trans hq)
  · intro h
    refine ⟨s, ?_, ?_⟩
    · rw [List.mem_inits]
    · show (rmatch (prefixPattern p1) s || rmatch (prefixPattern p2) s) = true
      rw [Bool.or_eq_true]
      rcases h with h | h
      · exact Or.inl ((rmatch_prefixPattern _ _).mpr h)
      · exact Or.inr ((rmatch_prefixPattern _ _).mpr h)

theorem anchoredTest_alt_false (p1 p2 s : List Char)
    (h1 : ¬ p1 <+: s) (h2 : ¬ p2 <+: s) :
    anchoredTest (Regex.alt (prefixPattern p1) (prefixPattern p2)) s = false := by
  rw [Bool.eq_false_iff]
  intro h
  rcases (anchoredTest_alt_prefixes p1 p2 s).mp h with h' | h'
  exacts [h1 h', h2 h']

/-! ### Namespace isolation facts about the substituted patterns -/

theorem takeWhile_append_slash (A t : List Char) (hA : '/' ∉ A) :
    (A ++ '/' :: t).takeWhile (fun c => c != '/') = A := by
  induction A with
  | nil => simp [List.takeWhile_cons]
  | cons c cs ih =>
    have hc : c ≠ '/' := fun h => hA (h ▸ List.mem_cons_self c cs)
    have hc' : (c != '/') = true := by simpa [bne_iff_ne] using hc
    simp [List.takeWhile_cons, hc', ih (fun h => hA (List.mem_cons_of_mem c h))]

/-- Two slash-free names followed by a slash delimiter can only be
prefix-related if they are equal. -/
theorem eq_of_slash_free (A B r : List Char) (hA : '/' ∉ A) (hB : '/' ∉ B)
    (h : (A ++ ['/']) <+: (B ++ '/' :: r)) : A = B := by
  obtain ⟨t, ht⟩ := h
  have h2 : A ++ '/' :: t = B ++ '/' :: r := by simpa [List.append_assoc] using ht
  have h3 := congrArg (List.takeWhile (fun c => c != '/')) h2
  rwa [takeWhile_append_slash A t hA, takeWhile_append_slash B r hB] at h3

theorem prefix_cancel_left {α : Type} (x u v : List α) :
    (x ++ u) <+: (x ++ v) ↔ u <+: v := by
  constructor
  · rintro ⟨t, ht⟩
    rw [List.append_assoc] at ht
    exact ⟨t, List.append_cancel_left ht⟩
  · rintro ⟨t, ht⟩
    exact ⟨t, by rw [List.append_assoc, ht]⟩

theorem not_prefix_of_head_ne {a b : Char} {l₁ l₂ : List Char} (h : a ≠ b) :
    ¬ (a :: l₁ <+: b :: l₂) := fun hp => h (List.cons_prefix_cons.mp hp).1

theorem queuePrefixOf_eq (ns : List Char) :
    queuePrefixOf ns = 'q' :: 'u' :: 'e' :: 'u' :: 'e' :: '/' :: (ns ++ ['/']) := rfl

theorem exchangePrefixOf_eq (ns : List Char) :
    exchangePrefixOf ns =
      'e' :: 'x' :: 'c' :: 'h' :: 'a' :: 'n' :: 'g' :: 'e' :: '/' :: (ns ++ ['/']) := rfl

/-- C2 (counterexample): the claim says namespace A's rules match no queue
or exchange name under a distinct namespace B's prefix; but A's
read-permission pattern (whose second alternative is `exchange/.*`) matches
the name `exchange/b/x`, which lies under B = `b`'s exchange prefix. -/
theorem C2_read_crosses_namespaces_counterexample :
    String.toList "a" ≠ String.toList "b" ∧
    exchangePrefixOf (String.toList "b") <+: String.toList "exchange/b/x" ∧
    anchoredTest (userReadPermission (String.toList "a"))
      (String.toList "exchange/b/x") = true := by
  refine ⟨by decide, ⟨['x'], by decide⟩, by decide⟩

/-- C2 (amended): for distinct slash-free namespace names A and B, the
configure and write rules of A match no queue or exchange name under B's
prefix, and A's read rule matches no queue name under B's prefix; the read
rule does, however, match every name under B's exchange prefix, because its
second alternative is `exchange/.*`. -/
theorem C2_namespace_isolation (A B rest : List Char)
    (hAB : A ≠ B) (hA : '/' ∉ A) (hB : '/' ∉ B) :
    anchoredTest (userConfigPermission A) (queuePrefixOf B ++ rest) = false ∧
    anchoredTest (userConfigPermission A) (exchangePrefixOf B ++ rest) = false ∧
    anchoredTest (userWritePermission A) (queuePrefixOf B ++ rest) = false ∧
    anchoredTest (userWritePermission A) (exchangePrefixOf B ++ rest) = false ∧
    anchoredTest (userReadPermission A) (queuePrefixOf B ++ rest) = false ∧
    anchoredTest (userReadPermission A) (exchangePrefixOf B ++ rest) = true := by
  have hqsplit : queuePrefixOf B ++ rest = String.toList "queue/" ++ (B ++ '/' :: rest) := by
    simp [queuePrefixOf, List.append_assoc]
  have hesplit : exchangePrefixOf B ++ rest =
      String.toList "exchange/" ++ (B ++ '/' :: rest) := by
    simp [exchangePrefixOf, List.append_assoc]
  have hqq : ¬ (queuePrefixOf A <+: queuePrefixOf B ++ rest) := by
    rw [hqsplit]
    show ¬ (String.toList "queue/" ++ (A ++ ['/']) <+: _)
    rw [prefix_cancel_left]
    intro h
    exact hAB (eq_of_slash_free A B rest hA hB h)
  have hee : ¬ (exchangePrefixOf A <+: exchangePrefixOf B ++ rest) := by
    rw [hesplit]
    show ¬ (String.toList "exchange/" ++ (A ++ ['/']) <+: _)
    rw [prefix_cancel_left]
    intro h
    exact hAB (eq_of_slash_free A B rest hA hB h)
  have heq : ¬ (exchangePrefixOf A <+: queuePrefixOf B ++ rest) := by
    rw [exchangePrefixOf_eq, queuePrefixOf_eq, List.cons_append]
    exact not_prefix_of_head_ne (by decide)
  have hqe : ¬ (queuePrefixOf A <+: exchangePrefixOf B ++ rest) := by
    rw [queuePrefixOf_eq, exchangePrefixOf_eq, List.cons_append]
    exact not_prefix_of_head_ne (by decide)
  have hrq : ¬ (String.toList "exchange/" <+: queuePrefixOf B ++ rest) := by
    rw [queuePrefixOf_eq, List.cons_append]
    show ¬ ('e' :: _ <+: _)
    exact not_prefix_of_head_ne (by decide)
  have hre : String.toList "exchange/" <+: exchangePrefixOf B ++ rest :=
    ⟨(B ++ ['/']) ++ rest, by simp [exchangePrefixOf, List.append_assoc]⟩
  refine ⟨?_, ?_, ?_, ?_, ?_, ?_⟩
  · exact anchoredTest_alt_false _ _ _ hqq heq
  · exact anchoredTest_alt_false _ _ _ hqe hee
  · exact anchoredTest_alt_false _ _ _ hqq heq
  · exact anchoredTest_alt_false _ _ _ hqe hee
  · exact anchoredTest_alt_false _ _ _ hqq hrq
  · exact (anchoredTest_alt_prefixes _ _ _).mpr (Or.inr hre)

/-- Witness for C2 (amended) at A = `a`, B = `b`, rest = `x`. -/
theorem C2_namespace_isolation_witness :
    (String.toList "a" ≠ String.toList "b" ∧
     '/' ∉ String.toList "a" ∧ '/' ∉ String.toList "b") ∧
    (anchoredTest (userConfigPermission (String.toList "a"))
        (queuePrefixOf (String.toList "b") ++ String.toList "x") = false ∧
     anchoredTest (userConfigPermission (String.toList "a"))
        (exchangePrefixOf (String.toList "b") ++ String.toList "x") = false ∧
     anchoredTest (userWritePermission (String.toList "a"))
        (queuePrefixOf (String.toList "b") ++ String.toList "x") = false ∧
     anchoredTest (userWritePermission (String.toList "a"))
        (exchangePrefixOf (String.toList "b") ++ String.toList "x") = false ∧
     anchoredTest (userReadPermission (String.toList "a"))
        (queuePrefixOf (String.toList "b") ++ String.toList "x") = false ∧
     anchoredTest (userReadPermission (String.toList "a"))
        (exchangePrefixOf (String.toList "b") ++ String.toList "x") = true) :=
  ⟨⟨by decide, by decide, by decide⟩,
   C2_namespace_isolation (String.toList "a") (String.toList "b") (String.toList "x")
     (by decide) (by decide) (by decide)⟩

/-! ## Namespace lifecycle components

The Alerter, Queue Monitor, Namespace Store and reclaim logic are described
by the design spec but their code is not under src/ (only `config.yml`
configures them), so they are modelled from the spec's words. Times are
naturals counting milliseconds. -/

/-- The classification of a queue by the Queue Monitor. -/
inductive Classification where
  | healthy
  | alert
  | delete
deriving DecidableEq

/-- The `rabbitQueueExpirationDelay` setting (config.yml line 8): 24 hours, in
milliseconds — "we re-send alerts at most once a day". -/
def rabbitQueueExpirationDelay : Nat := 24 * 60 * 60 * 1000

/-- The `namespacesExpirationDelay` setting (config.yml line 6): the one-hour reclaim
grace window, in milliseconds. -/
def namespacesExpirationDelay : Nat := 60 * 60 * 1000

/-- The `alertThreshold` for production (config.yml line 97). -/
def productionAlertThreshold : Nat := 4000

/-- The `deleteThreshold` for production (config.yml line 98). -/
def productionDeleteThreshold : Nat := 8000

/-- Modelled from the spec: the Alerter's persisted alert records, one
`lastAlertAt` timestamp per alert key (spec sections 3 and 6; the Alerter's
code is not under src/). -/
structure AlerterState where
  records : List (String × Nat)

def lastAlertAt (st : AlerterState) (key : String) : Option Nat :=
  st.records.lookup key

/-- Whether the suppression window has passed: no prior record, or
`now - lastAlertAt(key) > delay`. -/
def alertDue (delay : Nat) (st : AlerterState) (key : String) (now : Nat) : Bool :=
  match lastAlertAt st key with
  | none => true
  | some t => delay < now - t

/-- Modelled from the spec: `shouldAlert(key, classification)` returns true
iff the classification is `alert` and the suppression window has passed; on
returning true it persists `lastAlertAt(key) = now` (spec section 4.4; the
Alerter's code is not under src/). -/
def shouldAlert (delay : Nat) (st : AlerterState) (key : String) (c : Classification)
    (now : Nat) : Bool × AlerterState :=
  if (c == Classification.alert) && alertDue delay st key now then
    (true, ⟨(key, now) :: st.records.filter (fun r => r.1 != key)⟩)
  else
    (false, st)

/-- Modelled from the spec: the Queue Monitor's per-queue classification,
with the delete threshold checked before the alert threshold (spec
section 4.3; the monitor's code is not under src/). -/
def classify (alertThreshold deleteThreshold messageCount : Nat) : Classification :=
  if deleteThreshold ≤ messageCount then Classification.delete
  else if alertThreshold ≤ messageCount then Classification.alert
  else Classification.healthy

/-- Modelled from the spec: a Namespace Store record (spec sections 3
and 6; the store's code is not under src/). -/
structure NamespaceRecord where
  name : String
  created : Nat
  expires : Nat
  rotationVersion : Nat
  contact : String
deriving DecidableEq

/-- Modelled from the spec: the persisted namespace table (spec section 2;
the store's code is not under src/). -/
structure Store where
  records : List (String × NamespaceRecord)
deriving DecidableEq

def Store.find (st : Store) (name : String) : Option NamespaceRecord :=
  st.records.lookup name

/-- Modelled from the spec: the store's conditional (compare-and-swap)
update used by `rotate` — advance `expires` and bump `rotationVersion` only
if the caller's version token is still current; a stale token is a conflict
and leaves the store untouched (spec sections 4.1 and 9). Returns the
resulting store and whether the write won. -/
def condUpdateExpires (st : Store) (name : String) (expectedVersion : Nat)
    (newExpires : Nat) : Store × Bool :=
  match st.find name with
  | none => (st, false)
  | some r =>
    if r.rotationVersion == expectedVersion then
      (⟨(name, { r with expires := newExpires, rotationVersion := r.rotationVersion + 1 }) ::
          st.records.filter (fun p => p.1 != name)⟩, true)
    else
      (st, false)

/-- Modelled from the spec: the whole per-namespace state a `reclaim`
touches — the store record, the broker user and the permission rules (spec
section 4.1; the Namespace Manager's code is not under src/). -/
structure SystemState where
  store : Store
  brokerUsers : List (String × BrokerUser)
  permissions : List (String × (List Char × List Char × List Char))

/-- Modelled from the spec: `reclaim(namespace)` deletes the broker user,
the permission rules and the store record of a namespace whose `expires` is
older than the grace window, and otherwise does nothing (spec section 4.1;
the Namespace Manager's code is not under src/). -/
def reclaim (grace now : Nat) (name : String) (sys : SystemState) : SystemState :=
  match sys.store.find name with
  | none => sys
  | some r =>
    if r.expires + grace < now then
      ⟨⟨sys.store.records.filter (fun p => p.1 != name)⟩,
       sys.brokerUsers.filter (fun p => p.1 != name),
       sys.permissions.filter (fun p => p.1 != name)⟩
    else
      sys

/-! ## Claim theorems for the lifecycle components -/

/-- C5: `shouldAlert(key, c)` returns true exactly when `c` is the alert
classification and either no prior record exists for the key or
`now - lastAlertAt(key)` exceeds the suppression delay; with the configured
24-hour window, two calls for the same key at 0h and 1h return true then
false, and a call at 25h returns true again. -/
theorem C5_shouldAlert_window (delay : Nat) (st : AlerterState) (key : String)
    (c : Classification) (now : Nat) :
    ((shouldAlert delay st key c now).1 = true ↔
      (c = Classification.alert ∧
        (lastAlertAt st key = none ∨
         ∃ t, lastAlertAt st key = some t ∧ delay < now - t))) ∧
    ((shouldAlert rabbitQueueExpirationDelay ⟨[]⟩ "k" Classification.alert 0).1 = true ∧
     (shouldAlert rabbitQueueExpirationDelay
        (shouldAlert rabbitQueueExpirationDelay ⟨[]⟩ "k" Classification.alert 0).2
        "k" Classification.alert 3600000).1 = false ∧
     (shouldAlert rabbitQueueExpirationDelay
        (shouldAlert rabbitQueueExpirationDelay
          (shouldAlert rabbitQueueExpirationDelay ⟨[]⟩ "k" Classification.alert 0).2
          "k" Classification.alert 3600000).2
        "k" Classification.alert 90000000).1 = true) := by
  constructor
  · have hdue : alertDue delay st key now = true ↔
        (lastAlertAt st key = none ∨
         ∃ t, lastAlertAt st key = some t ∧ delay < now - t) := by
      unfold alertDue
      cases h : lastAlertAt st key with
      | none => simp
      | some t => simp
    have hmain : (shouldAlert delay st key c now).1 = true ↔
        ((c == Classification.alert) && alertDue delay st key now) = true := by
      unfold shouldAlert
      cases h : ((c == Classification.alert) && alertDue delay st key now) with
      | true => simp [h]
      | false => simp [h]
    rw [hmain, Bool.and_eq_true, beq_iff_eq, hdue]
  · exact ⟨by decide, by decide, by decide⟩

/-- C6: a queue whose message count reaches the delete threshold is
classified `delete` and not `alert`, even when the count also reaches the
alert threshold: the delete threshold takes precedence. -/
theorem C6_delete_precedence (a d c : Nat) (_halert : a ≤ c) (hd : d ≤ c) :
    classify a d c = Classification.delete ∧ classify a d c ≠ Classification.alert := by
  unfold classify
  rw [if_pos hd]
  exact ⟨rfl, by decide⟩

/-- Witness for C6 at the production thresholds and a count past both. -/
theorem C6_delete_precedence_witness :
    (productionAlertThreshold ≤ 9000 ∧ productionDeleteThreshold ≤ 9000) ∧
    (classify productionAlertThreshold productionDeleteThreshold 9000 =
        Classification.delete ∧
     classify productionAlertThreshold productionDeleteThreshold 9000 ≠
        Classification.alert) :=
  ⟨⟨by decide, by decide⟩,
   C6_delete_precedence productionAlertThreshold productionDeleteThreshold 9000
     (by decide) (by decide)⟩

/-- C7: of two rotation attempts starting from the same version token,
the first conditional update succeeds and advances `expires` and
`rotationVersion`; the second observes the stale token, reports a conflict,
and leaves the store exactly as the winner left it. -/
theorem C7_rotation_race (st : Store) (name : String) (r : NamespaceRecord) (e1 e2 : Nat)
    (hlook : st.find name = some r) :
    (condUpdateExpires st name r.rotationVersion e1).2 = true ∧
    (condUpdateExpires st name r.rotationVersion e1).1.find name =
      some { r with expires := e1, rotationVersion := r.rotationVersion + 1 } ∧
    (condUpdateExpires (condUpdateExpires st name r.rotationVersion e1).1 name
        r.rotationVersion e2).2 = false ∧
    (condUpdateExpires (condUpdateExpires st name r.rotationVersion e1).1 name
        r.rotationVersion e2).1 =
      (condUpdateExpires st name r.rotationVersion e1).1 := by
  have h1 : condUpdateExpires st name r.rotationVersion e1 =
      (⟨(name, { r with expires := e1, rotationVersion := r.rotationVersion + 1 }) ::
          st.records.filter (fun p => p.1 != name)⟩, true) := by
    simp [condUpdateExpires, hlook]
  have hfind : (condUpdateExpires st name r.rotationVersion e1).1.find name =
      some { r with expires := e1, rotationVersion := r.rotationVersion + 1 } := by
    rw [h1]
    simp [Store.find, List.lookup]
  have h2 : condUpdateExpires (condUpdateExpires st name r.rotationVersion e1).1 name
      r.rotationVersion e2 = ((condUpdateExpires st name r.rotationVersion e1).1, false) := by
    generalize hst1 : (condUpdateExpires st name r.rotationVersion e1).1 = st1 at hfind ⊢
    simp [condUpdateExpires, hfind, Nat.succ_ne_self]
  exact ⟨by rw [h1], hfind, by rw [h2], by rw [h2]⟩

/-- Witness for C7 at a concrete one-record store. -/
theorem C7_rotation_race_witness :
    ((⟨[("tc-foo", ⟨"tc-foo", 0, 100, 5, "ops"⟩)]⟩ : Store).find "tc-foo" =
        some ⟨"tc-foo", 0, 100, 5, "ops"⟩) ∧
    ((condUpdateExpires ⟨[("tc-foo", ⟨"tc-foo", 0, 100, 5, "ops"⟩)]⟩ "tc-foo" 5 200).2 =
        true ∧
     (condUpdateExpires ⟨[("tc-foo", ⟨"tc-foo", 0, 100, 5, "ops"⟩)]⟩ "tc-foo" 5 200).1.find
        "tc-foo" = some ⟨"tc-foo", 0, 200, 6, "ops"⟩ ∧
     (condUpdateExpires
        (condUpdateExpires ⟨[("tc-foo", ⟨"tc-foo", 0, 100, 5, "ops"⟩)]⟩ "tc-foo" 5 200).1
        "tc-foo" 5 300).2 = false ∧
     (condUpdateExpires
        (condUpdateExpires ⟨[("tc-foo", ⟨"tc-foo", 0, 100, 5, "ops"⟩)]⟩ "tc-foo" 5 200).1
        "tc-foo" 5 300).1 =
       (condUpdateExpires ⟨[("tc-foo", ⟨"tc-foo", 0, 100, 5, "ops"⟩)]⟩ "tc-foo" 5 200).1) :=
  ⟨rfl, C7_rotation_race ⟨[("tc-foo", ⟨"tc-foo", 0, 100, 5, "ops"⟩)]⟩ "tc-foo"
     ⟨"tc-foo", 0, 100, 5, "ops"⟩ 200 300 rfl⟩

/-- C8: `reclaim` on a namespace whose `expires` lies in the future is a
no-op — the broker user, the permission rules and the store record are all
left untouched. -/
theorem C8_reclaim_noop (grace now : Nat) (name : String) (sys : SystemState)
    (r : NamespaceRecord) (hlook : sys.store.find name = some r)
    (hfuture : now ≤ r.expires) :
    reclaim grace now name sys = sys := by
  have hnl : ¬ (r.expires + grace < now) := by omega
  simp [reclaim, hlook, hnl]

/-- Witness for C8 at a concrete live namespace. -/
theorem C8_reclaim_noop_witness :
    ((⟨⟨[("tc-foo", ⟨"tc-foo", 0, 100, 5, "ops"⟩)]⟩, [("tc-foo", ⟨"pw", []⟩)],
        []⟩ : SystemState).store.find "tc-foo" = some ⟨"tc-foo", 0, 100, 5, "ops"⟩ ∧
     (50 : Nat) ≤ 100) ∧
    reclaim namespacesExpirationDelay 50 "tc-foo"
        ⟨⟨[("tc-foo", ⟨"tc-foo", 0, 100, 5, "ops"⟩)]⟩, [("tc-foo", ⟨"pw", []⟩)], []⟩ =
      ⟨⟨[("tc-foo", ⟨"tc-foo", 0, 100, 5, "ops"⟩)]⟩, [("tc-foo", ⟨"pw", []⟩)], []⟩ :=
  ⟨⟨rfl, by decide⟩,
   C8_reclaim_noop namespacesExpirationDelay 50 "tc-foo" _ ⟨"tc-foo", 0, 100, 5, "ops"⟩
     rfl (by decide)⟩

end Pulse
